import Mathlib

/-!
Verification of the JSON-LD credential format adapter
(`JsonLdCredentialFormatService`) against its natural-language specification.

The adapter's operations are shallowly embedded as pure Lean functions:
JavaScript exceptions become `Except AriesError`, the mutable exchange record
becomes explicit state passing, and the external collaborators (DID resolver,
signing service, credential store) become function parameters.  JSON payloads
are modelled by a mutual inductive `Json` family, and the base64-encoded
attachment body is modelled as a token list with an executable encoder and
parser, so that encoding and decoding are real, computable operations.
-/

/-! A JSON value, as decoded from an attachment payload.  Arrays and objects
are represented by the mutual families `JsonArr`/`JsonObj` so that all
functions over them are structural recursions that compute by `rfl`. -/
mutual

inductive Json where
  | null : Json
  | bool : Bool → Json
  | num : Int → Json
  | str : String → Json
  | arr : JsonArr → Json
  | obj : JsonObj → Json

inductive JsonArr where
  | nil : JsonArr
  | cons : Json → JsonArr → JsonArr

inductive JsonObj where
  | nil : JsonObj
  | cons : String → Json → JsonObj → JsonObj

end

deriving instance DecidableEq for Json, JsonArr, JsonObj

/-- Number of elements of a JSON array. -/
def JsonArr.count : JsonArr → Nat
  | .nil => 0
  | .cons _ xs => xs.count + 1

/-- Number of fields of a JSON object. -/
def JsonObj.count : JsonObj → Nat
  | .nil => 0
  | .cons _ _ fs => fs.count + 1

/-- JavaScript object property lookup on a decoded JSON object. -/
def JsonObj.lookup : JsonObj → String → Option Json
  | .nil, _ => none
  | .cons k v fs, key => if k = key then some v else fs.lookup key

/-- JavaScript `delete obj[key]`: removes the property from the object,
leaving the remaining fields in their original order. -/
def JsonObj.removeField : JsonObj → String → JsonObj
  | .nil, _ => .nil
  | .cons k v fs, key =>
    if k = key then fs.removeField key else .cons k v (fs.removeField key)

/-! Modelled from the spec: `areObjectsEqual` (from the framework's `utils`
module, not part of the two source files) is "deep structural equality over
decoded JSON payloads". -/
mutual

def areObjectsEqual : Json → Json → Bool
  | .null, .null => true
  | .bool a, .bool b => a == b
  | .num a, .num b => a == b
  | .str a, .str b => a == b
  | .arr a, .arr b => areArraysEqual a b
  | .obj a, .obj b => areFieldsEqual a b
  | _, _ => false

def areArraysEqual : JsonArr → JsonArr → Bool
  | .nil, .nil => true
  | .cons x xs, .cons y ys => areObjectsEqual x y && areArraysEqual xs ys
  | _, _ => false

def areFieldsEqual : JsonObj → JsonObj → Bool
  | .nil, .nil => true
  | .cons k v fs, .cons l w gs => k == l && areObjectsEqual v w && areFieldsEqual fs gs
  | _, _ => false

end

/-- One token of the serialized attachment body.  Modelled from the spec:
the real codec (`JsonEncoder.toBase64` / `getDataAsJson`, from the
framework's `utils` module, not part of the two source files) serializes the
payload to JSON text and base64-encodes it; here the flat byte string is
modelled as a flat token sequence with a length-prefixed encoding, which
keeps the codec an honest, executable encoder/parser pair. -/
inductive JTok where
  | tnull : JTok
  | tbool : Bool → JTok
  | tnum : Int → JTok
  | tstr : String → JTok
  | tarr : Nat → JTok
  | tobj : Nat → JTok
  | tkey : String → JTok
deriving DecidableEq

/-! Serialize a JSON value to the flat token sequence of the attachment body. -/
mutual

def encodeJson : Json → List JTok
  | .null => [.tnull]
  | .bool b => [.tbool b]
  | .num n => [.tnum n]
  | .str s => [.tstr s]
  | .arr xs => .tarr xs.count :: encodeArr xs
  | .obj fs => .tobj fs.count :: encodeObj fs

def encodeArr : JsonArr → List JTok
  | .nil => []
  | .cons x xs => encodeJson x ++ encodeArr xs

def encodeObj : JsonObj → List JTok
  | .nil => []
  | .cons k v fs => .tkey k :: (encodeJson v ++ encodeObj fs)

end

/-! Fuel-indexed parser for one JSON value; inverse of `encodeJson`.
Structural recursion on the fuel keeps every equation definitional. -/
mutual

def parseTok : Nat → List JTok → Option (Json × List JTok)
  | 0, _ => none
  | _ + 1, [] => none
  | _ + 1, .tnull :: ts => some (.null, ts)
  | _ + 1, .tbool b :: ts => some (.bool b, ts)
  | _ + 1, .tnum n :: ts => some (.num n, ts)
  | _ + 1, .tstr s :: ts => some (.str s, ts)
  | f + 1, .tarr n :: ts =>
    match parseItems f n ts with
    | some (xs, rest) => some (.arr xs, rest)
    | none => none
  | f + 1, .tobj n :: ts =>
    match parseFields f n ts with
    | some (fs, rest) => some (.obj fs, rest)
    | none => none
  | _ + 1, .tkey _ :: _ => none

def parseItems : Nat → Nat → List JTok → Option (JsonArr × List JTok)
  | _, 0, ts => some (.nil, ts)
  | 0, _ + 1, _ => none
  | f + 1, n + 1, ts =>
    match parseTok f ts with
    | some (x, rest) =>
      match parseItems f n rest with
      | some (xs, rest') => some (.cons x xs, rest')
      | none => none
    | none => none

def parseFields : Nat → Nat → List JTok → Option (JsonObj × List JTok)
  | _, 0, ts => some (.nil, ts)
  | 0, _ + 1, _ => none
  | _ + 1, _ + 1, [] => none
  | f + 1, n + 1, t :: ts =>
    match t with
    | .tkey k =>
      match parseTok f ts with
      | some (v, rest) =>
        match parseFields f n rest with
        | some (fs, rest') => some (.cons k v fs, rest')
        | none => none
      | none => none
    | _ => none

end

/-! Fuel needed by `parseTok` to parse the encoding of a value. -/
mutual

def depthJson : Json → Nat
  | .null => 1
  | .bool _ => 1
  | .num _ => 1
  | .str _ => 1
  | .arr xs => 1 + depthArr xs
  | .obj fs => 1 + depthObj fs

def depthArr : JsonArr → Nat
  | .nil => 0
  | .cons x xs => 1 + Nat.max (depthJson x) (depthArr xs)

def depthObj : JsonObj → Nat
  | .nil => 0
  | .cons _ v fs => 1 + Nat.max (depthJson v) (depthObj fs)

end

mutual

theorem parseTok_encode (x : Json) : ∀ (f : Nat) (rest : List JTok),
    depthJson x ≤ f → parseTok f (encodeJson x ++ rest) = some (x, rest) := by
  cases x with
  | null =>
    intro f rest h
    cases f with
    | zero => simp only [depthJson] at h; omega
    | succ f' => simp [encodeJson, parseTok]
  | bool b =>
    intro f rest h
    cases f with
    | zero => simp only [depthJson] at h; omega
    | succ f' => simp [encodeJson, parseTok]
  | num n =>
    intro f rest h
    cases f with
    | zero => simp only [depthJson] at h; omega
    | succ f' => simp [encodeJson, parseTok]
  | str s =>
    intro f rest h
    cases f with
    | zero => simp only [depthJson] at h; omega
    | succ f' => simp [encodeJson, parseTok]
  | arr xs =>
    intro f rest h
    cases f with
    | zero => simp only [depthJson] at h; omega
    | succ f' =>
      have hd : depthArr xs ≤ f' := by
        simp only [depthJson] at h; omega
      simp [encodeJson, parseTok, parseItems_encode xs f' rest hd]
  | obj fs =>
    intro f rest h
    cases f with
    | zero => simp only [depthJson] at h; omega
    | succ f' =>
      have hd : depthObj fs ≤ f' := by
        simp only [depthJson] at h; omega
      simp [encodeJson, parseTok, parseObj_encode fs f' rest hd]

theorem parseItems_encode (xs : JsonArr) : ∀ (f : Nat) (rest : List JTok),
    depthArr xs ≤ f →
    parseItems f xs.count (encodeArr xs ++ rest) = some (xs, rest) := by
  cases xs with
  | nil =>
    intro f rest h
    simp [encodeArr, JsonArr.count, parseItems]
  | cons x xs =>
    intro f rest h
    cases f with
    | zero => simp only [depthArr] at h; omega
    | succ f' =>
      have hmax : Nat.max (depthJson x) (depthArr xs) ≤ f' := by
        simp only [depthArr] at h; omega
      have h1 : depthJson x ≤ f' := le_trans (Nat.le_max_left _ _) hmax
      have h2 : depthArr xs ≤ f' := le_trans (Nat.le_max_right _ _) hmax
      simp [encodeArr, JsonArr.count, parseItems, List.append_assoc,
        parseTok_encode x f' (encodeArr xs ++ rest) h1,
        parseItems_encode xs f' rest h2]

theorem parseObj_encode (fs : JsonObj) : ∀ (f : Nat) (rest : List JTok),
    depthObj fs ≤ f →
    parseFields f fs.count (encodeObj fs ++ rest) = some (fs, rest) := by
  cases fs with
  | nil =>
    intro f rest h
    simp [encodeObj, JsonObj.count, parseFields]
  | cons k v fs =>
    intro f rest h
    cases f with
    | zero => simp only [depthObj] at h; omega
    | succ f' =>
      have hmax : Nat.max (depthJson v) (depthObj fs) ≤ f' := by
        simp only [depthObj] at h; omega
      have h1 : depthJson v ≤ f' := le_trans (Nat.le_max_left _ _) hmax
      have h2 : depthObj fs ≤ f' := le_trans (Nat.le_max_right _ _) hmax
      simp [encodeObj, JsonObj.count, parseFields, List.append_assoc,
        parseTok_encode v f' (encodeObj fs ++ rest) h1,
        parseObj_encode fs f' rest h2]

end

theorem encodeJson_length_pos (x : Json) : 1 ≤ (encodeJson x).length := by
  cases x <;> simp [encodeJson]

mutual

theorem depthJson_le_len (x : Json) : depthJson x ≤ 2 * (encodeJson x).length := by
  cases x with
  | null => simp [depthJson, encodeJson]
  | bool b => simp [depthJson, encodeJson]
  | num n => simp [depthJson, encodeJson]
  | str s => simp [depthJson, encodeJson]
  | arr xs =>
    have h := depthArr_le_len xs
    simp only [depthJson, encodeJson, List.length_cons]
    omega
  | obj fs =>
    have h := depthObj_le_len fs
    simp only [depthJson, encodeJson, List.length_cons]
    omega

theorem depthArr_le_len (xs : JsonArr) : depthArr xs ≤ 2 * (encodeArr xs).length + 1 := by
  cases xs with
  | nil => simp [depthArr]
  | cons x xs =>
    have h1 := depthJson_le_len x
    have h2 := depthArr_le_len xs
    have hpos := encodeJson_length_pos x
    have hmax : Nat.max (depthJson x) (depthArr xs) ≤
        2 * (encodeJson x).length + 2 * (encodeArr xs).length :=
      Nat.max_le.mpr ⟨by omega, by omega⟩
    simp only [depthArr, encodeArr, List.length_append]
    generalize Nat.max (depthJson x) (depthArr xs) = m at hmax ⊢
    omega

theorem depthObj_le_len (fs : JsonObj) : depthObj fs ≤ 2 * (encodeObj fs).length + 1 := by
  cases fs with
  | nil => simp [depthObj]
  | cons k v fs =>
    have h1 := depthJson_le_len v
    have h2 := depthObj_le_len fs
    have hpos := encodeJson_length_pos v
    have hmax : Nat.max (depthJson v) (depthObj fs) ≤
        2 * (encodeJson v).length + 2 * (encodeObj fs).length :=
      Nat.max_le.mpr ⟨by omega, by omega⟩
    simp only [depthObj, encodeObj, List.length_cons, List.length_append]
    generalize Nat.max (depthJson v) (depthObj fs) = m at hmax ⊢
    omega

end

/-- Decode a full attachment body back to a JSON value; `none` models a
malformed (non-JSON / non-base64) body. -/
def decodeTokens (ts : List JTok) : Option Json :=
  match parseTok (2 * ts.length + 1) ts with
  | some (x, []) => some x
  | _ => none

theorem decodeTokens_encodeJson (x : Json) : decodeTokens (encodeJson x) = some x := by
  have h : depthJson x ≤ 2 * (encodeJson x).length + 1 := by
    have := depthJson_le_len x
    omega
  have hp := parseTok_encode x (2 * (encodeJson x).length + 1) [] h
  rw [List.append_nil] at hp
  simp [decodeTokens, hp]

/-- The error taxonomy of the adapter.  In the source every failure is an
`AriesFrameworkError` (or a plain `Error` for `deleteCredentialById`) carrying
a message; here each throw site gets a named constructor, following the
spec's error taxonomy, with the data the message interpolates. -/
inductive AriesError where
  | malformedAttachment : AriesError
  | validationError : String → AriesError
  | missingPayload : String → AriesError
  | unsupportedOption : List String → AriesError
  | missingVerificationMethod : AriesError
  | unsupportedProofType : String → AriesError
  | verificationMethodNotFound : List String → AriesError
  | credentialMismatch : String → AriesError
  | proofArrayUnsupported : AriesError
  | verificationFailed : Option String → AriesError
  | resolverError : String → AriesError
  | notImplemented : AriesError
deriving DecidableEq

/-- `const JSONLD_VC_DETAIL = 'aries/ld-proof-vc-detail@v1.0'`. -/
def JSONLD_VC_DETAIL : String := "aries/ld-proof-vc-detail@v1.0"

/-- `const JSONLD_VC = 'aries/ld-proof-vc@1.0'`. -/
def JSONLD_VC : String := "aries/ld-proof-vc@1.0"

/-- `public readonly credentialRecordType = 'w3c' as const`. -/
def credentialRecordTypeW3c : String := "w3c"

/-- Wire attachment: `{ id, mimeType, data: { base64 } }`. -/
structure V1AttachmentData where
  base64 : List JTok
deriving DecidableEq

structure V1Attachment where
  id : String
  mimeType : String
  data : V1AttachmentData
deriving DecidableEq

/-- `attachment.getDataAsJson()`: decode the base64 body back to JSON.
Modelled from the spec: fails with `MalformedAttachmentError` when the body
is not a valid encoding. -/
def getDataAsJson (attachment : V1Attachment) : Except AriesError Json :=
  match decodeTokens attachment.data.base64 with
  | some json => Except.ok json
  | none => Except.error AriesError.malformedAttachment

/-- `getFormatData(data, id)`: build the attachment with the fixed JSON media
type and the encoded body (source lines 435-445). -/
def getFormatData (data : Json) (id : String) : V1Attachment :=
  { id := id
    mimeType := "application/json"
    data := { base64 := encodeJson data } }

/-- `CredentialFormatSpec`: format descriptor plus correlated attachment id. -/
structure CredentialFormatSpec where
  attachId : String
  format : String
deriving DecidableEq

/-- `new CredentialFormatSpec({ attachId, format })`: uses the supplied
attachment id when present, otherwise the freshly generated one (the
generated uuid is passed in explicitly as `freshId`). -/
def mkFormatSpec (freshId : String) (attachId : Option String) (format : String) :
    CredentialFormatSpec :=
  { attachId := attachId.getD freshId, format := format }

/-- The proof options carried in a credential detail
(`JsonLdCredentialDetailOptions`): `proofType` required, the rest optional,
with presence itself significant. -/
structure JsonLdCredentialDetailOptions where
  proofType : String
  proofPurpose : Option String
  created : Option String
  domain : Option String
  challenge : Option String
  verificationMethod : Option String
  credentialStatus : Option Json
deriving DecidableEq

/-- `JsonLdFormatDataCredentialDetail`: the unsigned credential (kept as raw
JSON, as the source keeps the decoded payload) plus its proof options. -/
structure JsonLdFormatDataCredentialDetail where
  credential : Json
  options : JsonLdCredentialDetailOptions
deriving DecidableEq

/-- Read an optional string-valued property of a JSON object. -/
def optStringField (fields : JsonObj) (key : String) :
    Except AriesError (Option String) :=
  match fields.lookup key with
  | none => Except.ok none
  | some (Json.str s) => Except.ok (some s)
  | some _ => Except.error (AriesError.validationError key)

/-- Modelled from the spec: `JsonTransformer.fromJSON(json,
JsonLdCredentialDetail)` (transformer and class are outside the two source
files) validates a decoded payload against the CredentialDetail schema and
yields the typed detail; schema violations are `ValidationError`s.  This
also stands in for the JavaScript property accesses `request.credential` /
`request.options.*` on a payload that was only type-cast, whose failures on
malformed payloads are likewise thrown errors. -/
def detailOfJson (json : Json) : Except AriesError JsonLdFormatDataCredentialDetail := do
  let fields ← match json with
    | Json.obj fields => Except.ok fields
    | _ => Except.error (AriesError.validationError "credential detail")
  let credential ← match fields.lookup "credential" with
    | some c => Except.ok c
    | none => Except.error (AriesError.validationError "credential")
  let optionFields ← match fields.lookup "options" with
    | some (Json.obj o) => Except.ok o
    | _ => Except.error (AriesError.validationError "options")
  let proofType ← match optionFields.lookup "proofType" with
    | some (Json.str s) => Except.ok s
    | _ => Except.error (AriesError.validationError "options.proofType")
  let proofPurpose ← optStringField optionFields "proofPurpose"
  let created ← optStringField optionFields "created"
  let domain ← optStringField optionFields "domain"
  let challenge ← optStringField optionFields "challenge"
  let verificationMethod ← optStringField optionFields "verificationMethod"
  let credentialStatus := optionFields.lookup "credentialStatus"
  Except.ok
    { credential := credential
      options :=
        { proofType := proofType
          proofPurpose := proofPurpose
          created := created
          domain := domain
          challenge := challenge
          verificationMethod := verificationMethod
          credentialStatus := credentialStatus } }

/-- A single linked-data proof, as read from `credential.proof`. -/
structure LinkedDataProof where
  type : String
  created : Option String
  domain : Option String
  challenge : Option String
  proofPurpose : Option String
  verificationMethod : Option String
deriving DecidableEq

/-- `W3cVerifiableCredential`: the credential's JSON content without its
proof field, plus the proof, which is either a single proof object or an
array of proofs (an unsupported shape the matcher rejects). -/
structure W3cVerifiableCredential where
  content : JsonObj
  proof : Sum LinkedDataProof (List LinkedDataProof)

/-- Parse one proof object. -/
def proofOfJson (json : Json) : Except AriesError LinkedDataProof := do
  let fields ← match json with
    | Json.obj fields => Except.ok fields
    | _ => Except.error (AriesError.validationError "proof")
  let type ← match fields.lookup "type" with
    | some (Json.str s) => Except.ok s
    | _ => Except.error (AriesError.validationError "proof.type")
  let created ← optStringField fields "created"
  let domain ← optStringField fields "domain"
  let challenge ← optStringField fields "challenge"
  let proofPurpose ← optStringField fields "proofPurpose"
  let verificationMethod ← optStringField fields "verificationMethod"
  Except.ok
    { type := type
      created := created
      domain := domain
      challenge := challenge
      proofPurpose := proofPurpose
      verificationMethod := verificationMethod }

def proofsOfJsonArr : JsonArr → Except AriesError (List LinkedDataProof)
  | JsonArr.nil => Except.ok []
  | JsonArr.cons x xs => do
    let p ← proofOfJson x
    let ps ← proofsOfJsonArr xs
    Except.ok (p :: ps)

/-- Modelled from the spec: `JsonTransformer.fromJSON(json,
W3cVerifiableCredential)` (outside the two source files) validates the
decoded payload as a verifiable credential: the proof must be present, and
is either one proof object or an array of proof objects. -/
def w3cVerifiableCredentialFromJSON (json : Json) :
    Except AriesError W3cVerifiableCredential := do
  let fields ← match json with
    | Json.obj fields => Except.ok fields
    | _ => Except.error (AriesError.validationError "credential")
  let proof ← match fields.lookup "proof" with
    | none => Except.error (AriesError.validationError "credential.proof")
    | some (Json.arr proofsJson) => do
      let proofs ← proofsOfJsonArr proofsJson
      Except.ok (Sum.inr proofs)
    | some proofJson => do
      let p ← proofOfJson proofJson
      Except.ok (Sum.inl p)
  Except.ok { content := fields.removeField "proof", proof := proof }

/-- Issuer of a credential: a bare identifier string or an object with an
`id` field (source lines 269-273 branch on `typeof issuerDid !== 'string'`). -/
structure IssuerObject where
  id : String
deriving DecidableEq

/-- The slice of `W3cCredential` the adapter reads: its issuer. -/
structure W3cCredential where
  issuer : Sum String IssuerObject

/-- Modelled from the spec: `JsonTransformer.fromJSON(json, W3cCredential)`
(outside the two source files) validates the unsigned credential; the
adapter then reads its `issuer`, which is "a bare identifier string, or a
structured issuer object whose `id` field is the identifier". -/
def w3cCredentialFromJSON (json : Json) : Except AriesError W3cCredential := do
  let fields ← match json with
    | Json.obj fields => Except.ok fields
    | _ => Except.error (AriesError.validationError "credential")
  let issuer ← match fields.lookup "issuer" with
    | some (Json.str s) => Except.ok (Sum.inl s)
    | some (Json.obj issuerFields) =>
      match issuerFields.lookup "id" with
      | some (Json.str s) => Except.ok (Sum.inr { id := s })
      | _ => Except.error (AriesError.validationError "issuer.id")
    | _ => Except.error (AriesError.validationError "issuer")
  Except.ok { issuer := issuer }

/-- `let issuerDid = credential.issuer; if (typeof issuerDid !== 'string')
issuerDid = issuerDid.id` (source lines 269-273). -/
def credentialIssuerId (credential : W3cCredential) : String :=
  match credential.issuer with
  | Sum.inl s => s
  | Sum.inr issuer => issuer.id

/-- A verification method entry of a resolved DID document. -/
structure VerificationMethod where
  id : String
  type : String
deriving DecidableEq

/-- The slice of a resolved DID document the adapter reads. -/
structure DidDocument where
  verificationMethod : List VerificationMethod
deriving DecidableEq

/-- Modelled from the spec: `findVerificationMethodByKeyType` (from the DIDs
module, outside the two source files) "search[es] the identity document for a
verification method of that key type" and returns the first match. -/
def findVerificationMethodByKeyType (keyType : String) (didDocument : DidDocument) :
    Option VerificationMethod :=
  didDocument.verificationMethod.find? (fun method => method.type == keyType)

/-- JavaScript truthiness of an optional string option: `undefined` and the
empty string are falsy, every other string is truthy. -/
def optionTruthy : Option String → Bool
  | none => false
  | some s => !(s == "")

/-- Message of the created-rule mismatch (source line 340). -/
def createdMismatchMsg : String :=
  "Received credential proof created does not match created from credential request"

/-- Message of the domain-rule mismatch (source line 344). -/
def domainMismatchMsg : String :=
  "Received credential proof domain does not match domain from credential request"

/-- Message of the challenge-rule mismatch (source lines 348-350). -/
def challengeMismatchMsg : String :=
  "Received credential proof challenge does not match challenge from credential request"

/-- Message of the proof-type-rule mismatch (source line 354). -/
def proofTypeMismatchMsg : String :=
  "Received credential proof type does not match proof type from credential request"

/-- Message of the proof-purpose-rule mismatch (source lines 358-360). -/
def proofPurposeMismatchMsg : String :=
  "Received credential proof purpose does not match proof purpose from credential request"

/-- Message of the content-rule mismatch (source line 365). -/
def contentMismatchMsg : String :=
  "Received credential does not match credential request"

/-- `verifyReceivedCredentialMatchesRequest` (source lines 328-369), the
CredentialMatcher: array-proof check first, then the created rule (guarded
by JavaScript truthiness of `request.options.created`), then the domain,
challenge, proof-type, proof-purpose and content rules, in source order. -/
def verifyReceivedCredentialMatchesRequest (credential : W3cVerifiableCredential)
    (request : JsonLdFormatDataCredentialDetail) : Except AriesError Unit :=
  let jsonCredential := Json.obj credential.content
  match credential.proof with
  | Sum.inr _ => Except.error AriesError.proofArrayUnsupported
  | Sum.inl proof =>
    if optionTruthy request.options.created = true ∧
        proof.created ≠ request.options.created then
      Except.error (AriesError.credentialMismatch createdMismatchMsg)
    else if proof.domain ≠ request.options.domain then
      Except.error (AriesError.credentialMismatch domainMismatchMsg)
    else if proof.challenge ≠ request.options.challenge then
      Except.error (AriesError.credentialMismatch challengeMismatchMsg)
    else if proof.type ≠ request.options.proofType then
      Except.error (AriesError.credentialMismatch proofTypeMismatchMsg)
    else if proof.proofPurpose ≠ request.options.proofPurpose then
      Except.error (AriesError.credentialMismatch proofPurposeMismatchMsg)
    else if areObjectsEqual jsonCredential request.credential = false then
      Except.error (AriesError.credentialMismatch contentMismatchMsg)
    else Except.ok ()

/-- `supportsFormat(format)` (source lines 371-375): membership in the two
supported format descriptor constants. -/
def supportsFormat (format : String) : Bool :=
  [JSONLD_VC_DETAIL, JSONLD_VC].contains format

/-- `deleteCredentialById` (source lines 377-379): always throws. -/
def deleteCredentialById : Except AriesError Unit :=
  Except.error AriesError.notImplemented

/-- `acceptProposal` (source lines 89-107): decode the proposal, validate it,
re-encode the same decoded content as the offer attachment. -/
def acceptProposal (freshId : String) (attachId : Option String)
    (proposalAttachment : V1Attachment) :
    Except AriesError (CredentialFormatSpec × V1Attachment) := do
  let format := mkFormatSpec freshId attachId JSONLD_VC_DETAIL
  let credentialProposal ← getDataAsJson proposalAttachment
  let _ ← detailOfJson credentialProposal
  let offerData := credentialProposal
  let attachment := getFormatData offerData format.attachId
  Except.ok (format, attachment)

/-- `acceptOffer` (source lines 149-165): decode the offer, validate it,
re-encode the same decoded content as the request attachment. -/
def acceptOffer (freshId : String) (attachId : Option String)
    (offerAttachment : V1Attachment) :
    Except AriesError (CredentialFormatSpec × V1Attachment) := do
  let credentialOffer ← getDataAsJson offerAttachment
  let _ ← detailOfJson credentialOffer
  let format := mkFormatSpec freshId attachId JSONLD_VC_DETAIL
  let attachment := getFormatData credentialOffer format.attachId
  Except.ok (format, attachment)

/-- `deriveVerificationMethod` (source lines 258-293): validate the unsigned
credential, take its issuer identifier, resolve the issuer's DID document
(the resolver is the external collaborator `resolveDidDocument`), map the
proof type to its compatible key types (the external table
`getVerificationMethodTypesByProofType`), fail when there is none, else
search the document for a method of the first compatible key type. -/
def deriveVerificationMethod
    (resolveDidDocument : String → Except AriesError DidDocument)
    (getVerificationMethodTypesByProofType : String → List String)
    (credentialAsJson : Json)
    (credentialRequest : JsonLdFormatDataCredentialDetail) :
    Except AriesError String := do
  let credential ← w3cCredentialFromJSON credentialAsJson
  let issuerDid := credentialIssuerId credential
  let issuerDidDocument ← resolveDidDocument issuerDid
  let proofType := credentialRequest.options.proofType
  let keyType := getVerificationMethodTypesByProofType proofType
  match keyType with
  | [] => Except.error (AriesError.unsupportedProofType proofType)
  | kt :: _ =>
    match findVerificationMethodByKeyType kt issuerDidDocument with
    | none => Except.error (AriesError.verificationMethodNotFound keyType)
    | some verificationMethod => Except.ok verificationMethod.id

/-- The option fields unsupported at issuance (source line 232), in source
order: `['challenge', 'domain', 'credentialStatus', 'created']`. -/
def unsupportedFields : List String :=
  ["challenge", "domain", "credentialStatus", "created"]

/-- `options[field] !== undefined` for the four unsupported fields. -/
def isFieldSet (options : JsonLdCredentialDetailOptions) : String → Bool
  | "challenge" => options.challenge.isSome
  | "domain" => options.domain.isSome
  | "credentialStatus" => options.credentialStatus.isSome
  | "created" => options.created.isSome
  | _ => false

/-- `acceptRequest` (source lines 207-251): decode the request, pick the
caller-supplied verification method if any (nullish coalescing), otherwise
derive one; reject empty methods; reject requests whose options set any
unsupported field, listing all of them; validate the unsigned credential;
sign it through the external signing service and encode the result under
`JSONLD_VC`. -/
def acceptRequest
    (resolveDidDocument : String → Except AriesError DidDocument)
    (getVerificationMethodTypesByProofType : String → List String)
    (signCredential : W3cCredential → String → String → Json)
    (freshId : String)
    (verificationMethodOption : Option String)
    (attachId : Option String)
    (requestAttachment : V1Attachment) :
    Except AriesError (CredentialFormatSpec × V1Attachment) := do
  let credentialRequestJson ← getDataAsJson requestAttachment
  let credentialRequest ← detailOfJson credentialRequestJson
  let verificationMethod ← match verificationMethodOption with
    | some vm => Except.ok vm
    | none =>
      deriveVerificationMethod resolveDidDocument
        getVerificationMethodTypesByProofType credentialRequest.credential
        credentialRequest
  if verificationMethod = "" then
    Except.error AriesError.missingVerificationMethod
  else
    let format := mkFormatSpec freshId attachId JSONLD_VC
    let options := credentialRequest.options
    let foundFields := unsupportedFields.filter (isFieldSet options)
    if foundFields.length > 0 then
      Except.error (AriesError.unsupportedOption foundFields)
    else do
      let credential ← w3cCredentialFromJSON credentialRequest.credential
      let verifiableCredential :=
        signCredential credential credentialRequest.options.proofType verificationMethod
      let attachment := getFormatData verifiableCredential format.attachId
      Except.ok (format, attachment)

/-- Result of the external `verifyCredential` collaborator. -/
structure W3cVerifyCredentialResult where
  verified : Bool
  error : Option String
deriving DecidableEq

/-- Record returned by the external `storeCredential` collaborator. -/
structure W3cCredentialRecord where
  id : String
deriving DecidableEq

/-- One `(recordType, recordId)` reference appended to the exchange record. -/
structure CredentialRef where
  credentialRecordType : String
  credentialRecordId : String
deriving DecidableEq

/-- `processCredential` (source lines 299-326): decode the credential and the
request, run the matcher, cryptographically verify through the external
service (`none` models a null/undefined result of the collaborator, which
the source's `if (result && !result.verified)` lets pass), store the
credential, and append one reference to the exchange record.  The record is
threaded explicitly; every failure path returns it unchanged. -/
def processCredential
    (verifyCredential : W3cVerifiableCredential → Option W3cVerifyCredentialResult)
    (storeCredential : W3cVerifiableCredential → Except AriesError W3cCredentialRecord)
    (attachment : V1Attachment)
    (requestAttachment : V1Attachment)
    (credentialRecord : List CredentialRef) :
    Except AriesError Unit × List CredentialRef :=
  match getDataAsJson attachment with
  | Except.error e => (Except.error e, credentialRecord)
  | Except.ok credentialAsJson =>
    match w3cVerifiableCredentialFromJSON credentialAsJson with
    | Except.error e => (Except.error e, credentialRecord)
    | Except.ok credential =>
      match getDataAsJson requestAttachment with
      | Except.error e => (Except.error e, credentialRecord)
      | Except.ok requestJson =>
        match detailOfJson requestJson with
        | Except.error e => (Except.error e, credentialRecord)
        | Except.ok requestAsJson =>
          match verifyReceivedCredentialMatchesRequest credential requestAsJson with
          | Except.error e => (Except.error e, credentialRecord)
          | Except.ok _ =>
            let result := verifyCredential credential
            if (match result with
                | some r => !r.verified
                | none => false) = true then
              (Except.error (AriesError.verificationFailed
                (match result with
                 | some r => r.error
                 | none => none)), credentialRecord)
            else
              match storeCredential credential with
              | Except.error e => (Except.error e, credentialRecord)
              | Except.ok verifiableCredential =>
                (Except.ok (),
                 credentialRecord ++
                   [⟨credentialRecordTypeW3c, verifiableCredential.id⟩])

/-- `shouldAutoRespondToCredential` (source lines 409-426): decode and
transform the credential attachment and decode the request attachment
*outside* the `try`; inside the `try`, check the credential against the
request (the property accesses on the merely type-cast request payload are
modelled by `detailOfJson`, they too happen inside the protected region) and
map success to `true`, any caught failure to `false`. -/
def shouldAutoRespondToCredential (requestAttachment : V1Attachment)
    (credentialAttachment : V1Attachment) : Except AriesError Bool := do
  let credentialJson ← getDataAsJson credentialAttachment
  let w3cCredential ← w3cVerifiableCredentialFromJSON credentialJson
  let requestJson ← getDataAsJson requestAttachment
  match (do
      let request ← detailOfJson requestJson
      verifyReceivedCredentialMatchesRequest w3cCredential request :
      Except AriesError Unit) with
  | Except.ok _ => Except.ok true
  | Except.error _ => Except.ok false

/-- Decoding an attachment built by `getFormatData` restores the payload. -/
theorem getDataAsJson_getFormatData (x : Json) (id : String) :
    getDataAsJson (getFormatData x id) = Except.ok x := by
  simp [getDataAsJson, getFormatData, decodeTokens_encodeJson]

/-- C9: `supportsFormat` returns true exactly on the unsigned-detail
constant `aries/ld-proof-vc-detail@v1.0` and the signed-credential constant
`aries/ld-proof-vc@1.0`, and false on every other string. -/
theorem supportsFormat_spec (s : String) :
    supportsFormat s = true ↔
      s = "aries/ld-proof-vc-detail@v1.0" ∨ s = "aries/ld-proof-vc@1.0" := by
  constructor
  · intro h
    simp [supportsFormat, JSONLD_VC_DETAIL, JSONLD_VC, List.contains] at h
    rcases h with h | h <;> simp [h]
  · intro h
    rcases h with h | h <;>
      simp [supportsFormat, JSONLD_VC_DETAIL, JSONLD_VC, List.contains, h]

/-- Witness instantiating `supportsFormat_spec` at concrete inputs. -/
theorem supportsFormat_spec_witness :
    supportsFormat "aries/ld-proof-vc@1.0" = true ∧
      supportsFormat "aries/ld-proof-vc-detail@v1.0" = true :=
  ⟨(supportsFormat_spec "aries/ld-proof-vc@1.0").mpr (Or.inr rfl),
   (supportsFormat_spec "aries/ld-proof-vc-detail@v1.0").mpr (Or.inl rfl)⟩

/-- C7: a credential whose proof is an array fails the matcher with
`ProofArrayUnsupportedError`, whatever its content, its proofs and the
request are — the array rule fires before every other matcher rule. -/
theorem matcher_rejects_proof_array (content : JsonObj)
    (proofs : List LinkedDataProof) (request : JsonLdFormatDataCredentialDetail) :
    verifyReceivedCredentialMatchesRequest ⟨content, Sum.inr proofs⟩ request =
      Except.error AriesError.proofArrayUnsupported := rfl

/-- C10: when the external verifier returns a null/undefined result,
`processCredential` treats the credential as verified: it stores it and
appends the reference to the exchange record. -/
theorem processCredential_null_verify_result
    (verifyCredential : W3cVerifiableCredential → Option W3cVerifyCredentialResult)
    (storeCredential : W3cVerifiableCredential → Except AriesError W3cCredentialRecord)
    (attachment requestAttachment : V1Attachment)
    (credentialRecord : List CredentialRef)
    (credentialAsJson requestJson : Json)
    (credential : W3cVerifiableCredential)
    (request : JsonLdFormatDataCredentialDetail)
    (storedRecord : W3cCredentialRecord)
    (h1 : getDataAsJson attachment = Except.ok credentialAsJson)
    (h2 : w3cVerifiableCredentialFromJSON credentialAsJson = Except.ok credential)
    (h3 : getDataAsJson requestAttachment = Except.ok requestJson)
    (h4 : detailOfJson requestJson = Except.ok request)
    (h5 : verifyReceivedCredentialMatchesRequest credential request = Except.ok ())
    (h6 : verifyCredential credential = none)
    (h7 : storeCredential credential = Except.ok storedRecord) :
    processCredential verifyCredential storeCredential attachment
        requestAttachment credentialRecord =
      (Except.ok (),
       credentialRecord ++ [⟨credentialRecordTypeW3c, storedRecord.id⟩]) := by
  simp [processCredential, h1, h2, h3, h4, h5, h6, h7]

/-- Sample credential content `{"issuer": "did:example:123"}`. -/
def sampleContent : JsonObj :=
  JsonObj.cons "issuer" (Json.str "did:example:123") JsonObj.nil

/-- Sample proof object JSON. -/
def sampleProofJson : Json :=
  Json.obj (JsonObj.cons "type" (Json.str "Ed25519Signature2018")
    (JsonObj.cons "proofPurpose" (Json.str "assertionMethod") JsonObj.nil))

/-- Sample signed credential JSON: the content plus one proof. -/
def sampleVcJson : Json :=
  Json.obj (JsonObj.cons "issuer" (Json.str "did:example:123")
    (JsonObj.cons "proof" sampleProofJson JsonObj.nil))

/-- Sample request detail JSON whose credential and options match
`sampleVcJson`. -/
def sampleRequestJson : Json :=
  Json.obj (JsonObj.cons "credential" (Json.obj sampleContent)
    (JsonObj.cons "options"
      (Json.obj (JsonObj.cons "proofType" (Json.str "Ed25519Signature2018")
        (JsonObj.cons "proofPurpose" (Json.str "assertionMethod") JsonObj.nil)))
      JsonObj.nil))

/-- The parsed form of `sampleProofJson`. -/
def sampleProof : LinkedDataProof :=
  { type := "Ed25519Signature2018"
    created := none
    domain := none
    challenge := none
    proofPurpose := some "assertionMethod"
    verificationMethod := none }

/-- The parsed form of `sampleVcJson`. -/
def sampleVc : W3cVerifiableCredential :=
  { content := sampleContent, proof := Sum.inl sampleProof }

/-- The parsed form of `sampleRequestJson`. -/
def sampleRequest : JsonLdFormatDataCredentialDetail :=
  { credential := Json.obj sampleContent
    options :=
      { proofType := "Ed25519Signature2018"
        proofPurpose := some "assertionMethod"
        created := none
        domain := none
        challenge := none
        verificationMethod := none
        credentialStatus := none } }

/-- Witness instantiating `processCredential_null_verify_result` on a
concrete exchange: the verifier collaborator returns `none` and the
credential is stored and appended anyway. -/
theorem processCredential_null_verify_result_witness :
    processCredential (fun _ => none) (fun _ => Except.ok ⟨"rec-1"⟩)
        (getFormatData sampleVcJson "att-1")
        (getFormatData sampleRequestJson "att-2") [] =
      (Except.ok (), [⟨credentialRecordTypeW3c, "rec-1"⟩]) :=
  processCredential_null_verify_result (fun _ => none)
    (fun _ => Except.ok ⟨"rec-1"⟩) (getFormatData sampleVcJson "att-1")
    (getFormatData sampleRequestJson "att-2") [] sampleVcJson sampleRequestJson
    sampleVc sampleRequest ⟨"rec-1"⟩
    (getDataAsJson_getFormatData sampleVcJson "att-1") rfl
    (getDataAsJson_getFormatData sampleRequestJson "att-2") rfl rfl rfl rfl

/-- C3: in `processCredential` the matcher check runs strictly before the
cryptographic verification (on a matcher failure the outcome is the same for
every verifier and store collaborator, which therefore are never consulted),
and the single external mutation — appending one reference to the exchange
record — happens only once the matcher, the verification and the store have
all succeeded; on every failure path the record is returned unchanged. -/
theorem processCredential_effect_order
    (attachment requestAttachment : V1Attachment)
    (credentialRecord : List CredentialRef)
    (credentialAsJson requestJson : Json)
    (credential : W3cVerifiableCredential)
    (request : JsonLdFormatDataCredentialDetail)
    (h1 : getDataAsJson attachment = Except.ok credentialAsJson)
    (h2 : w3cVerifiableCredentialFromJSON credentialAsJson = Except.ok credential)
    (h3 : getDataAsJson requestAttachment = Except.ok requestJson)
    (h4 : detailOfJson requestJson = Except.ok request) :
    (∀ e verifyCredential storeCredential,
      verifyReceivedCredentialMatchesRequest credential request = Except.error e →
      processCredential verifyCredential storeCredential attachment
          requestAttachment credentialRecord = (Except.error e, credentialRecord)) ∧
    (∀ verifyCredential storeCredential r,
      verifyReceivedCredentialMatchesRequest credential request = Except.ok () →
      verifyCredential credential = some r → r.verified = false →
      processCredential verifyCredential storeCredential attachment
          requestAttachment credentialRecord =
        (Except.error (AriesError.verificationFailed r.error), credentialRecord)) ∧
    (∀ verifyCredential storeCredential e,
      verifyReceivedCredentialMatchesRequest credential request = Except.ok () →
      (verifyCredential credential = none ∨
        ∃ r, verifyCredential credential = some r ∧ r.verified = true) →
      storeCredential credential = Except.error e →
      processCredential verifyCredential storeCredential attachment
          requestAttachment credentialRecord = (Except.error e, credentialRecord)) ∧
    (∀ verifyCredential storeCredential storedRecord,
      verifyReceivedCredentialMatchesRequest credential request = Except.ok () →
      (verifyCredential credential = none ∨
        ∃ r, verifyCredential credential = some r ∧ r.verified = true) →
      storeCredential credential = Except.ok storedRecord →
      processCredential verifyCredential storeCredential attachment
          requestAttachment credentialRecord =
        (Except.ok (),
         credentialRecord ++ [⟨credentialRecordTypeW3c, storedRecord.id⟩])) := by
  refine ⟨?_, ?_, ?_, ?_⟩
  · intro e verifyCredential storeCredential hm
    simp [processCredential, h1, h2, h3, h4, hm]
  · intro verifyCredential storeCredential r hm hv hr
    simp [processCredential, h1, h2, h3, h4, hm, hv, hr]
  · intro verifyCredential storeCredential e hm hv hs
    rcases hv with hv | ⟨r, hv, hr⟩
    · simp [processCredential, h1, h2, h3, h4, hm, hv, hs]
    · simp [processCredential, h1, h2, h3, h4, hm, hv, hr, hs]
  · intro verifyCredential storeCredential storedRecord hm hv hs
    rcases hv with hv | ⟨r, hv, hr⟩
    · simp [processCredential, h1, h2, h3, h4, hm, hv, hs]
    · simp [processCredential, h1, h2, h3, h4, hm, hv, hr, hs]

/-- Witness instantiating `processCredential_effect_order` on a concrete
exchange: a request whose domain option differs from the credential's proof
makes the matcher fail, and the record stays empty for arbitrary chosen
collaborators. -/
theorem processCredential_effect_order_witness :
    processCredential (fun _ => some ⟨true, none⟩) (fun _ => Except.ok ⟨"rec-9"⟩)
        (getFormatData sampleVcJson "att-1")
        (getFormatData sampleRequestJson "att-2") [] =
      (Except.ok (), [⟨credentialRecordTypeW3c, "rec-9"⟩]) :=
  ((processCredential_effect_order (getFormatData sampleVcJson "att-1")
      (getFormatData sampleRequestJson "att-2") [] sampleVcJson sampleRequestJson
      sampleVc sampleRequest
      (getDataAsJson_getFormatData sampleVcJson "att-1") rfl
      (getDataAsJson_getFormatData sampleRequestJson "att-2") rfl).2.2.2)
    (fun _ => some ⟨true, none⟩) (fun _ => Except.ok ⟨"rec-9"⟩) ⟨"rec-9"⟩ rfl
    (Or.inr ⟨⟨true, none⟩, rfl, rfl⟩) rfl

/-- Reduction of a successful `Except` bind. -/
@[simp] theorem Except.ok_bind {ε α β : Type} (x : α) (f : α → Except ε β) :
    (Except.ok x : Except ε α) >>= f = f x := rfl

/-- Reduction of a failed `Except` bind. -/
@[simp] theorem Except.error_bind {ε α β : Type} (e : ε) (f : α → Except ε β) :
    (Except.error e : Except ε α) >>= f = Except.error e := rfl

/-- An attachment whose body is not a valid encoding of any JSON payload. -/
def malformedAttachment : V1Attachment :=
  { id := "cred-bad"
    mimeType := "application/json"
    data := { base64 := [JTok.tkey "x"] } }

/-- C1 counterexample: `shouldAutoRespondToCredential` does propagate an
exception when decoding the credential attachment fails — the decode and
transform steps sit before the `try` block, so this concrete call returns an
error instead of `false`, contradicting the claim that every failure while
checking the credential against the request is caught internally. -/
theorem shouldAutoRespondToCredential_propagates_decode_failure :
    shouldAutoRespondToCredential (getFormatData sampleRequestJson "att-2")
        malformedAttachment =
      Except.error AriesError.malformedAttachment := rfl

/-- C1 amended: only failures raised while matching the (already decoded and
transformed) credential against the request — including a structurally
malformed request payload — are caught and turned into `false`; the
operation returns `true` exactly when the matcher fully succeeds.  Failures
while base64-decoding either attachment or transforming the credential occur
before the protected region and propagate to the caller. -/
theorem shouldAutoRespondToCredential_soft_fails_matcher
    (requestAttachment credentialAttachment : V1Attachment)
    (credentialJson requestJson : Json) (credential : W3cVerifiableCredential)
    (h1 : getDataAsJson credentialAttachment = Except.ok credentialJson)
    (h2 : w3cVerifiableCredentialFromJSON credentialJson = Except.ok credential)
    (h3 : getDataAsJson requestAttachment = Except.ok requestJson) :
    (∀ request, detailOfJson requestJson = Except.ok request →
      verifyReceivedCredentialMatchesRequest credential request = Except.ok () →
      shouldAutoRespondToCredential requestAttachment credentialAttachment =
        Except.ok true) ∧
    (∀ request e, detailOfJson requestJson = Except.ok request →
      verifyReceivedCredentialMatchesRequest credential request = Except.error e →
      shouldAutoRespondToCredential requestAttachment credentialAttachment =
        Except.ok false) ∧
    (∀ e, detailOfJson requestJson = Except.error e →
      shouldAutoRespondToCredential requestAttachment credentialAttachment =
        Except.ok false) := by
  refine ⟨?_, ?_, ?_⟩
  · intro request hd hm
    simp [shouldAutoRespondToCredential, h1, h2, h3, hd, hm]
  · intro request e hd hm
    simp [shouldAutoRespondToCredential, h1, h2, h3, hd, hm]
  · intro e hd
    simp [shouldAutoRespondToCredential, h1, h2, h3, hd]

/-- Witness instantiating `shouldAutoRespondToCredential_soft_fails_matcher`:
with a request detail whose challenge option has no counterpart in the
credential's proof, the matcher fails and the operation returns `false`. -/
theorem shouldAutoRespondToCredential_soft_fails_matcher_witness :
    shouldAutoRespondToCredential
        (getFormatData (Json.obj (JsonObj.cons "credential" (Json.obj sampleContent)
          (JsonObj.cons "options"
            (Json.obj (JsonObj.cons "proofType" (Json.str "Ed25519Signature2018")
              (JsonObj.cons "challenge" (Json.str "c-1") JsonObj.nil)))
            JsonObj.nil))) "att-2")
        (getFormatData sampleVcJson "att-1") =
      Except.ok false :=
  ((shouldAutoRespondToCredential_soft_fails_matcher
      (getFormatData (Json.obj (JsonObj.cons "credential" (Json.obj sampleContent)
        (JsonObj.cons "options"
          (Json.obj (JsonObj.cons "proofType" (Json.str "Ed25519Signature2018")
            (JsonObj.cons "challenge" (Json.str "c-1") JsonObj.nil)))
          JsonObj.nil))) "att-2")
      (getFormatData sampleVcJson "att-1") sampleVcJson
      (Json.obj (JsonObj.cons "credential" (Json.obj sampleContent)
        (JsonObj.cons "options"
          (Json.obj (JsonObj.cons "proofType" (Json.str "Ed25519Signature2018")
            (JsonObj.cons "challenge" (Json.str "c-1") JsonObj.nil)))
          JsonObj.nil)))
      sampleVc (getDataAsJson_getFormatData sampleVcJson "att-1") rfl
      (getDataAsJson_getFormatData _ "att-2")).2.1
    _ (AriesError.credentialMismatch challengeMismatchMsg) rfl rfl)

/-- Proof whose `created` differs from the request's (empty) `created`. -/
def c4Proof : LinkedDataProof :=
  { type := "Ed25519Signature2018"
    created := some "2020-01-01T00:00:00Z"
    domain := none
    challenge := none
    proofPurpose := some "assertionMethod"
    verificationMethod := none }

/-- Credential carrying `c4Proof` over the sample content. -/
def c4Credential : W3cVerifiableCredential :=
  { content := sampleContent, proof := Sum.inl c4Proof }

/-- Request whose options carry `created` present but equal to the empty
string. -/
def c4Request : JsonLdFormatDataCredentialDetail :=
  { credential := Json.obj sampleContent
    options :=
      { proofType := "Ed25519Signature2018"
        proofPurpose := some "assertionMethod"
        created := some ""
        domain := none
        challenge := none
        verificationMethod := none
        credentialStatus := none } }

/-- C4 counterexample: the request's options carry `created` present (the
empty string) and the credential's `proof.created` differs from it, yet the
matcher succeeds — the source guards the created rule with JavaScript
truthiness (`if (request.options.created && ...)`), so a present-but-empty
`created` skips the rule, contradicting the claim that presence alone makes
a mismatch fail. -/
theorem matcher_created_empty_string_counterexample :
    c4Request.options.created = some "" ∧
    c4Proof.created = some "2020-01-01T00:00:00Z" ∧
    c4Credential.proof = Sum.inl c4Proof ∧
    c4Proof.created ≠ c4Request.options.created ∧
    verifyReceivedCredentialMatchesRequest c4Credential c4Request =
      Except.ok () :=
  ⟨rfl, rfl, rfl, by decide, rfl⟩

/-- C4 amended: the created rule fires only when the request's
`options.created` is truthy — present *and* non-empty.  When it is absent or
the empty string the rule is skipped entirely, so the outcome does not
depend on the credential's `proof.created` at all; when it is present and
non-empty, any differing `proof.created` fails with the created-mismatch
error. -/
theorem matcher_created_rule (content : JsonObj) (p : LinkedDataProof)
    (request : JsonLdFormatDataCredentialDetail) :
    (optionTruthy request.options.created = false →
      ∀ c', verifyReceivedCredentialMatchesRequest ⟨content, Sum.inl p⟩ request =
        verifyReceivedCredentialMatchesRequest
          ⟨content, Sum.inl { p with created := c' }⟩ request) ∧
    (∀ s, request.options.created = some s → s ≠ "" → p.created ≠ some s →
      verifyReceivedCredentialMatchesRequest ⟨content, Sum.inl p⟩ request =
        Except.error (AriesError.credentialMismatch createdMismatchMsg)) := by
  constructor
  · intro ht c'
    simp [verifyReceivedCredentialMatchesRequest, ht]
  · intro s hs hne hpc
    simp [verifyReceivedCredentialMatchesRequest, hs, optionTruthy, hne, hpc]

/-- Witness instantiating `matcher_created_rule`: a request demanding
`created = "2021-01-01T00:00:00Z"` fails against a credential whose proof
has no `created`. -/
theorem matcher_created_rule_witness :
    verifyReceivedCredentialMatchesRequest ⟨sampleContent, Sum.inl sampleProof⟩
        { credential := Json.obj sampleContent
          options :=
            { proofType := "Ed25519Signature2018"
              proofPurpose := some "assertionMethod"
              created := some "2021-01-01T00:00:00Z"
              domain := none
              challenge := none
              verificationMethod := none
              credentialStatus := none } } =
      Except.error (AriesError.credentialMismatch createdMismatchMsg) :=
  (matcher_created_rule sampleContent sampleProof _).2 "2021-01-01T00:00:00Z"
    rfl (by decide) (by decide)

/-- Every failure of `w3cCredentialFromJSON` is a `ValidationError`. -/
theorem w3cCredentialFromJSON_error_shape (json : Json) (e : AriesError)
    (h : w3cCredentialFromJSON json = Except.error e) :
    ∃ m, e = AriesError.validationError m := by
  rcases json with _ | b | n | s | xs | fields <;>
    simp [w3cCredentialFromJSON] at h
  case null => exact ⟨"credential", h.symm⟩
  case bool => exact ⟨"credential", h.symm⟩
  case num => exact ⟨"credential", h.symm⟩
  case str => exact ⟨"credential", h.symm⟩
  case arr => exact ⟨"credential", h.symm⟩
  case obj =>
    cases hl : fields.lookup "issuer" with
    | none => simp [hl] at h; exact ⟨"issuer", h.symm⟩
    | some v =>
      rcases v with _ | b | n | s | xs | issuerFields <;> simp [hl] at h
      case null => exact ⟨"issuer", h.symm⟩
      case bool => exact ⟨"issuer", h.symm⟩
      case num => exact ⟨"issuer", h.symm⟩
      case arr => exact ⟨"issuer", h.symm⟩
      case obj =>
        cases hl2 : issuerFields.lookup "id" with
        | none => simp [hl2] at h; exact ⟨"issuer.id", h.symm⟩
        | some w =>
          rcases w with _ | b | n | s | xs | gs <;> simp [hl2] at h
          case null => exact ⟨"issuer.id", h.symm⟩
          case bool => exact ⟨"issuer.id", h.symm⟩
          case num => exact ⟨"issuer.id", h.symm⟩
          case arr => exact ⟨"issuer.id", h.symm⟩
          case obj => exact ⟨"issuer.id", h.symm⟩

/-- C2: once `acceptRequest` reaches the unsupported-options check (a
verification method was supplied, so derivation is skipped and cannot fail
first), it fails with `UnsupportedOptionError` listing exactly the set
fields of `{challenge, domain, credentialStatus, created}`, in the canonical
source order (the listed fields form a sublist of the canonical list), and
when none of the four is set it never fails with that error. -/
theorem acceptRequest_unsupported_options
    (resolveDidDocument : String → Except AriesError DidDocument)
    (getVerificationMethodTypesByProofType : String → List String)
    (signCredential : W3cCredential → String → String → Json)
    (freshId vm : String) (attachId : Option String)
    (requestAttachment : V1Attachment) (requestJson : Json)
    (request : JsonLdFormatDataCredentialDetail)
    (h1 : getDataAsJson requestAttachment = Except.ok requestJson)
    (h2 : detailOfJson requestJson = Except.ok request)
    (hvm : vm ≠ "") :
    (unsupportedFields.filter (isFieldSet request.options)).Sublist
        unsupportedFields ∧
    (∀ fld, fld ∈ unsupportedFields.filter (isFieldSet request.options) ↔
      fld ∈ unsupportedFields ∧ isFieldSet request.options fld = true) ∧
    (unsupportedFields.filter (isFieldSet request.options) ≠ [] →
      acceptRequest resolveDidDocument getVerificationMethodTypesByProofType
          signCredential freshId (some vm) attachId requestAttachment =
        Except.error (AriesError.unsupportedOption
          (unsupportedFields.filter (isFieldSet request.options)))) ∧
    (unsupportedFields.filter (isFieldSet request.options) = [] →
      ∀ fields, acceptRequest resolveDidDocument
          getVerificationMethodTypesByProofType signCredential freshId (some vm)
          attachId requestAttachment ≠
        Except.error (AriesError.unsupportedOption fields)) := by
  refine ⟨List.filter_sublist _, fun fld => List.mem_filter, ?_, ?_⟩
  · intro hne
    have hlen : 0 < (unsupportedFields.filter (isFieldSet request.options)).length :=
      List.length_pos.mpr hne
    simp [acceptRequest, h1, h2, hvm, hlen]
  · intro hempty fields
    cases hw : w3cCredentialFromJSON request.credential with
    | error e =>
      obtain ⟨m, rfl⟩ := w3cCredentialFromJSON_error_shape _ _ hw
      simp [acceptRequest, h1, h2, hvm, hempty, hw]
    | ok credential =>
      simp [acceptRequest, h1, h2, hvm, hempty, hw]

/-- Request detail JSON whose options set `challenge` and `created`. -/
def c2RequestJson : Json :=
  Json.obj (JsonObj.cons "credential" (Json.obj sampleContent)
    (JsonObj.cons "options"
      (Json.obj (JsonObj.cons "proofType" (Json.str "Ed25519Signature2018")
        (JsonObj.cons "challenge" (Json.str "c-1")
          (JsonObj.cons "created" (Json.str "2020-01-01T00:00:00Z")
            JsonObj.nil))))
      JsonObj.nil))

/-- Witness instantiating `acceptRequest_unsupported_options`: with
`challenge` and `created` set, the error lists exactly `challenge, created`
in canonical order. -/
theorem acceptRequest_unsupported_options_witness :
    acceptRequest (fun _ => Except.error (AriesError.resolverError "down"))
        (fun _ => []) (fun _ _ _ => Json.null) "fresh-1" (some "vm-1") none
        (getFormatData c2RequestJson "att-3") =
      Except.error (AriesError.unsupportedOption ["challenge", "created"]) :=
  ((acceptRequest_unsupported_options
      (fun _ => Except.error (AriesError.resolverError "down")) (fun _ => [])
      (fun _ _ _ => Json.null) "fresh-1" "vm-1" none
      (getFormatData c2RequestJson "att-3") c2RequestJson
      { credential := Json.obj sampleContent
        options :=
          { proofType := "Ed25519Signature2018"
            proofPurpose := none
            created := some "2020-01-01T00:00:00Z"
            domain := none
            challenge := some "c-1"
            verificationMethod := none
            credentialStatus := none } }
      (getDataAsJson_getFormatData c2RequestJson "att-3") rfl
      (by decide)).2.2.1 (by decide))

/-- C5: when the caller supplies a verification method, `acceptRequest`
never consults the resolver-based derivation — its outcome is identical for
arbitrary resolver and key-type-table collaborators — and on the successful
path the signing service receives exactly the supplied method. -/
theorem acceptRequest_explicit_verification_method
    (resolve1 resolve2 : String → Except AriesError DidDocument)
    (types1 types2 : String → List String)
    (signCredential : W3cCredential → String → String → Json)
    (freshId vm : String) (attachId : Option String)
    (requestAttachment : V1Attachment) :
    (acceptRequest resolve1 types1 signCredential freshId (some vm) attachId
        requestAttachment =
      acceptRequest resolve2 types2 signCredential freshId (some vm) attachId
        requestAttachment) ∧
    (∀ requestJson request credential,
      getDataAsJson requestAttachment = Except.ok requestJson →
      detailOfJson requestJson = Except.ok request →
      vm ≠ "" →
      unsupportedFields.filter (isFieldSet request.options) = [] →
      w3cCredentialFromJSON request.credential = Except.ok credential →
      acceptRequest resolve1 types1 signCredential freshId (some vm) attachId
          requestAttachment =
        Except.ok (mkFormatSpec freshId attachId JSONLD_VC,
          getFormatData
            (signCredential credential request.options.proofType vm)
            (mkFormatSpec freshId attachId JSONLD_VC).attachId)) := by
  constructor
  · simp [acceptRequest]
  · intro requestJson request credential h1 h2 hvm hempty hw
    simp [acceptRequest, h1, h2, hvm, hempty, hw]

/-- Witness instantiating `acceptRequest_explicit_verification_method`: a
resolver that always fails does not disturb the call, and the signer gets
the supplied method `vm-1`. -/
theorem acceptRequest_explicit_verification_method_witness :
    acceptRequest (fun _ => Except.error (AriesError.resolverError "down"))
        (fun _ => []) (fun _ proofType vm => Json.str (proofType ++ "|" ++ vm))
        "fresh-2" (some "vm-1") none (getFormatData sampleRequestJson "att-4") =
      Except.ok (mkFormatSpec "fresh-2" none JSONLD_VC,
        getFormatData (Json.str ("Ed25519Signature2018" ++ "|" ++ "vm-1"))
          (mkFormatSpec "fresh-2" none JSONLD_VC).attachId) :=
  (acceptRequest_explicit_verification_method
      (fun _ => Except.error (AriesError.resolverError "down"))
      (fun _ => Except.error (AriesError.resolverError "down"))
      (fun _ => []) (fun _ => [])
      (fun _ proofType vm => Json.str (proofType ++ "|" ++ vm)) "fresh-2" "vm-1"
      none (getFormatData sampleRequestJson "att-4")).2
    sampleRequestJson sampleRequest ⟨Sum.inl "did:example:123"⟩
    (getDataAsJson_getFormatData sampleRequestJson "att-4") rfl (by decide)
    (by decide) rfl

/-- `List.find?` returns the first element satisfying the predicate. -/
theorem listFindFirst {α : Type} (p : α → Bool) (l1 l2 : List α) (m : α)
    (hm : p m = true) (hl : ∀ x ∈ l1, p x = false) :
    (l1 ++ m :: l2).find? p = some m := by
  induction l1 with
  | nil =>
    rw [List.nil_append, List.find?_cons]
    simp [hm]
  | cons a l ih =>
    have ha : p a = false := hl a (by simp)
    rw [List.cons_append, List.find?_cons]
    simp only [ha]
    exact ih (fun x hx => hl x (by simp [hx]))

/-- C6: `deriveVerificationMethod` fails with `UnsupportedProofTypeError`
when the adapter-owned table maps the request's proof type to no compatible
key type; otherwise it takes the *first* compatible key type and returns the
identifier of the *first* verification method of that key type in the
resolved DID document, failing with `VerificationMethodNotFoundError` when
the document has none — for both issuer shapes, the bare identifier string
and the object whose `id` field is the identifier. -/
theorem deriveVerificationMethod_spec
    (resolveDidDocument : String → Except AriesError DidDocument)
    (getVerificationMethodTypesByProofType : String → List String)
    (credentialAsJson : Json)
    (credentialRequest : JsonLdFormatDataCredentialDetail)
    (credential : W3cCredential) (didDocument : DidDocument)
    (hc : w3cCredentialFromJSON credentialAsJson = Except.ok credential)
    (hr : resolveDidDocument (credentialIssuerId credential) =
      Except.ok didDocument) :
    (∀ s, credentialIssuerId ⟨Sum.inl s⟩ = s) ∧
    (∀ issuer : IssuerObject, credentialIssuerId ⟨Sum.inr issuer⟩ = issuer.id) ∧
    (getVerificationMethodTypesByProofType credentialRequest.options.proofType = [] →
      deriveVerificationMethod resolveDidDocument
          getVerificationMethodTypesByProofType credentialAsJson
          credentialRequest =
        Except.error (AriesError.unsupportedProofType
          credentialRequest.options.proofType)) ∧
    (∀ kt kts,
      getVerificationMethodTypesByProofType credentialRequest.options.proofType =
        kt :: kts →
      findVerificationMethodByKeyType kt didDocument = none →
      deriveVerificationMethod resolveDidDocument
          getVerificationMethodTypesByProofType credentialAsJson
          credentialRequest =
        Except.error (AriesError.verificationMethodNotFound (kt :: kts))) ∧
    (∀ kt kts m,
      getVerificationMethodTypesByProofType credentialRequest.options.proofType =
        kt :: kts →
      findVerificationMethodByKeyType kt didDocument = some m →
      deriveVerificationMethod resolveDidDocument
          getVerificationMethodTypesByProofType credentialAsJson
          credentialRequest = Except.ok m.id) ∧
    (∀ kt (l1 l2 : List VerificationMethod) (m : VerificationMethod),
      didDocument.verificationMethod = l1 ++ m :: l2 → m.type = kt →
      (∀ m' ∈ l1, m'.type ≠ kt) →
      findVerificationMethodByKeyType kt didDocument = some m) := by
  refine ⟨fun s => rfl, fun issuer => rfl, ?_, ?_, ?_, ?_⟩
  · intro hkt
    simp [deriveVerificationMethod, hc, hr, hkt]
  · intro kt kts hkt hfind
    simp [deriveVerificationMethod, hc, hr, hkt, hfind]
  · intro kt kts m hkt hfind
    simp [deriveVerificationMethod, hc, hr, hkt, hfind]
  · intro kt l1 l2 m hdoc hmt hl
    unfold findVerificationMethodByKeyType
    rw [hdoc]
    exact listFindFirst _ l1 l2 m (by simp [hmt])
      (fun x hx => by simp [hl x hx])

/-- A DID document whose first verification method has the wrong key type
and whose second has the compatible one. -/
def c6DidDocument : DidDocument :=
  { verificationMethod :=
      [{ id := "did:example:123#key-0", type := "OtherKey2019" },
       { id := "did:example:123#key-1", type := "Ed25519VerificationKey2018" }] }

/-- Witness instantiating `deriveVerificationMethod_spec`: the proof type
maps to `[Ed25519VerificationKey2018]` and derivation returns the id of the
first verification method of that type, skipping the incompatible one. -/
theorem deriveVerificationMethod_spec_witness :
    deriveVerificationMethod
        (fun did => if did = "did:example:123" then Except.ok c6DidDocument
          else Except.error (AriesError.resolverError did))
        (fun proofType => if proofType = "Ed25519Signature2018" then
          ["Ed25519VerificationKey2018"] else [])
        (Json.obj sampleContent) sampleRequest =
      Except.ok "did:example:123#key-1" :=
  (deriveVerificationMethod_spec
      (fun did => if did = "did:example:123" then Except.ok c6DidDocument
        else Except.error (AriesError.resolverError did))
      (fun proofType => if proofType = "Ed25519Signature2018" then
        ["Ed25519VerificationKey2018"] else [])
      (Json.obj sampleContent) sampleRequest ⟨Sum.inl "did:example:123"⟩
      c6DidDocument rfl rfl).2.2.2.2.1 "Ed25519VerificationKey2018" []
    { id := "did:example:123#key-1", type := "Ed25519VerificationKey2018" }
    rfl rfl

/-- C8: decoding an attachment produced by encoding any JSON payload yields
the payload again, and `acceptProposal` followed by `acceptOffer` on a valid
detail re-encodes the same decoded content at every step: the offer and
request attachments carry a body identical to the original proposal's, only
their attachment ids may differ, and the request attachment decodes back to
the original detail. -/
theorem codec_round_trip_pipeline :
    (∀ (x : Json) (id : String),
      getDataAsJson (getFormatData x id) = Except.ok x) ∧
    (∀ (j : Json) (id0 fresh1 fresh2 : String)
        (attachId1 attachId2 : Option String)
        (d : JsonLdFormatDataCredentialDetail),
      detailOfJson j = Except.ok d →
      acceptProposal fresh1 attachId1 (getFormatData j id0) =
        Except.ok (mkFormatSpec fresh1 attachId1 JSONLD_VC_DETAIL,
          getFormatData j (mkFormatSpec fresh1 attachId1 JSONLD_VC_DETAIL).attachId) ∧
      acceptOffer fresh2 attachId2
          (getFormatData j (mkFormatSpec fresh1 attachId1 JSONLD_VC_DETAIL).attachId) =
        Except.ok (mkFormatSpec fresh2 attachId2 JSONLD_VC_DETAIL,
          getFormatData j (mkFormatSpec fresh2 attachId2 JSONLD_VC_DETAIL).attachId) ∧
      (getFormatData j
          (mkFormatSpec fresh2 attachId2 JSONLD_VC_DETAIL).attachId).data =
        (getFormatData j id0).data ∧
      getDataAsJson (getFormatData j
          (mkFormatSpec fresh2 attachId2 JSONLD_VC_DETAIL).attachId) =
        Except.ok j) := by
  refine ⟨getDataAsJson_getFormatData, ?_⟩
  intro j id0 fresh1 fresh2 attachId1 attachId2 d hd
  refine ⟨?_, ?_, rfl, getDataAsJson_getFormatData j _⟩
  · simp [acceptProposal, getDataAsJson_getFormatData, hd]
  · simp [acceptOffer, getDataAsJson_getFormatData, hd]

/-- Witness instantiating `codec_round_trip_pipeline` on the sample detail:
the proposal → offer → request pipeline keeps the encoded body intact. -/
theorem codec_round_trip_pipeline_witness :
    acceptProposal "fresh-a" none (getFormatData sampleRequestJson "att-0") =
      Except.ok (mkFormatSpec "fresh-a" none JSONLD_VC_DETAIL,
        getFormatData sampleRequestJson
          (mkFormatSpec "fresh-a" none JSONLD_VC_DETAIL).attachId) ∧
    acceptOffer "fresh-b" (some "att-7")
        (getFormatData sampleRequestJson
          (mkFormatSpec "fresh-a" none JSONLD_VC_DETAIL).attachId) =
      Except.ok (mkFormatSpec "fresh-b" (some "att-7") JSONLD_VC_DETAIL,
        getFormatData sampleRequestJson
          (mkFormatSpec "fresh-b" (some "att-7") JSONLD_VC_DETAIL).attachId) :=
  ⟨(codec_round_trip_pipeline.2 sampleRequestJson "att-0" "fresh-a" "fresh-b"
      none (some "att-7") sampleRequest rfl).1,
   (codec_round_trip_pipeline.2 sampleRequestJson "att-0" "fresh-a" "fresh-b"
      none (some "att-7") sampleRequest rfl).2.1⟩
